import Mathlib

/-! Verification of the `usb-parse` USB 2.0 packet decoder.

This file is a shallow embedding of `usb-parse.py`: the CRC5/CRC16
engines, the oversampling bit-clock integrator, the line-state machine,
the NRZI decoder and byte assembler, and the PID packet classifier,
together with theorems checking the natural-language specification
against the code.  Timestamps and voltages are modelled as rationals
(`ℚ`); Python machine integers are modelled as `Nat`/`Int`; fallible
list indexing is modelled with `Option`.
-/

namespace UsbParse

/-- Exact rational addition written in normalising form.  It agrees
with `+` on `ℚ` (`qadd_eq_add`) but, unlike `Rat.add`, it also reduces
definitionally, so concrete decoder runs can be settled by `decide`. -/
def qadd (a b : ℚ) : ℚ := mkRat (a.num * b.den + b.num * a.den) (a.den * b.den)

theorem qadd_eq_add (a b : ℚ) : qadd a b = a + b := (Rat.add_def' a b).symm

/-! ## CRC5 and CRC16 engines (lines 31-84 of the source) -/

def crc5_tbl : List Nat :=
  [0x00, 0x0b, 0x16, 0x1d, 0x05, 0x0e, 0x13, 0x18, 0x0a, 0x01,
   0x1c, 0x17, 0x0f, 0x04, 0x19, 0x12, 0x14, 0x1f, 0x02, 0x09,
   0x11, 0x1a, 0x07, 0x0c, 0x1e, 0x15, 0x08, 0x03, 0x1b, 0x10,
   0x0d, 0x06]

/-- Table-driven CRC5 over an 11-bit input, as in the source
(`usb_crc5`).  The table indices are provably below 32, so the `getD`
default is never consulted. -/
def usb_crc5 (data : Nat) : Nat :=
  let data := data ^^^ 0x1f
  let lsb := (data >>> 1) &&& 0x1f
  let msb := (data >>> 6) &&& 0x1f
  let crc := if data &&& 1 ≠ 0 then 0x14 else 0x00
  let crc := crc5_tbl.getD (lsb ^^^ crc) 0
  let crc := crc5_tbl.getD (msb ^^^ crc) 0
  crc ^^^ 0x1f

def crc16_tbl : List Nat :=
  [0x0000, 0xc0c1, 0xc181, 0x0140, 0xc301, 0x03c0, 0x0280, 0xc241, 0xc601,
   0x06c0, 0x0780, 0xc741, 0x0500, 0xc5c1, 0xc481, 0x0440, 0xcc01, 0x0cc0,
   0x0d80, 0xcd41, 0x0f00, 0xcfc1, 0xce81, 0x0e40, 0x0a00, 0xcac1, 0xcb81,
   0x0b40, 0xc901, 0x09c0, 0x0880, 0xc841, 0xd801, 0x18c0, 0x1980, 0xd941,
   0x1b00, 0xdbc1, 0xda81, 0x1a40, 0x1e00, 0xdec1, 0xdf81, 0x1f40, 0xdd01,
   0x1dc0, 0x1c80, 0xdc41, 0x1400, 0xd4c1, 0xd581, 0x1540, 0xd701, 0x17c0,
   0x1680, 0xd641, 0xd201, 0x12c0, 0x1380, 0xd341, 0x1100, 0xd1c1, 0xd081,
   0x1040, 0xf001, 0x30c0, 0x3180, 0xf141, 0x3300, 0xf3c1, 0xf281, 0x3240,
   0x3600, 0xf6c1, 0xf781, 0x3740, 0xf501, 0x35c0, 0x3480, 0xf441, 0x3c00,
   0xfcc1, 0xfd81, 0x3d40, 0xff01, 0x3fc0, 0x3e80, 0xfe41, 0xfa01, 0x3ac0,
   0x3b80, 0xfb41, 0x3900, 0xf9c1, 0xf881, 0x3840, 0x2800, 0xe8c1, 0xe981,
   0x2940, 0xeb01, 0x2bc0, 0x2a80, 0xea41, 0xee01, 0x2ec0, 0x2f80, 0xef41,
   0x2d00, 0xedc1, 0xec81, 0x2c40, 0xe401, 0x24c0, 0x2580, 0xe541, 0x2700,
   0xe7c1, 0xe681, 0x2640, 0x2200, 0xe2c1, 0xe381, 0x2340, 0xe101, 0x21c0,
   0x2080, 0xe041, 0xa001, 0x60c0, 0x6180, 0xa141, 0x6300, 0xa3c1, 0xa281,
   0x6240, 0x6600, 0xa6c1, 0xa781, 0x6740, 0xa501, 0x65c0, 0x6480, 0xa441,
   0x6c00, 0xacc1, 0xad81, 0x6d40, 0xaf01, 0x6fc0, 0x6e80, 0xae41, 0xaa01,
   0x6ac0, 0x6b80, 0xab41, 0x6900, 0xa9c1, 0xa881, 0x6840, 0x7800, 0xb8c1,
   0xb981, 0x7940, 0xbb01, 0x7bc0, 0x7a80, 0xba41, 0xbe01, 0x7ec0, 0x7f80,
   0xbf41, 0x7d00, 0xbdc1, 0xbc81, 0x7c40, 0xb401, 0x74c0, 0x7580, 0xb541,
   0x7700, 0xb7c1, 0xb681, 0x7640, 0x7200, 0xb2c1, 0xb381, 0x7340, 0xb101,
   0x71c0, 0x7080, 0xb041, 0x5000, 0x90c1, 0x9181, 0x5140, 0x9301, 0x53c0,
   0x5280, 0x9241, 0x9601, 0x56c0, 0x5780, 0x9741, 0x5500, 0x95c1, 0x9481,
   0x5440, 0x9c01, 0x5cc0, 0x5d80, 0x9d41, 0x5f00, 0x9fc1, 0x9e81, 0x5e40,
   0x5a00, 0x9ac1, 0x9b81, 0x5b40, 0x9901, 0x59c0, 0x5880, 0x9841, 0x8801,
   0x48c0, 0x4980, 0x8941, 0x4b00, 0x8bc1, 0x8a81, 0x4a40, 0x4e00, 0x8ec1,
   0x8f81, 0x4f40, 0x8d01, 0x4dc0, 0x4c80, 0x8c41, 0x4400, 0x84c1, 0x8581,
   0x4540, 0x8701, 0x47c0, 0x4680, 0x8641, 0x8201, 0x42c0, 0x4380, 0x8341,
   0x4100, 0x81c1, 0x8081, 0x4040]

/-- Table-driven CRC16 over a byte sequence, as in the source
(`usb_crc16`). -/
def usb_crc16 (data : List Nat) : Nat :=
  (data.foldl (fun crc b => (crc >>> 8) ^^^ crc16_tbl.getD ((crc ^^^ b) &&& 0xff) 0)
    0xffff) ^^^ 0xffff

/-! ## Bit-at-a-time CRC5 references

`crc5_spec_msbFirst` is modelled from the spec's words (there is no
bit-at-a-time CRC5 in the source): polynomial `x^5+x^2+1`, register
initialised to all-ones, MSB-first over exactly 11 bits, final register
ones-complemented.  `crc5_bitwise_lsbFirst` is the mirrored orientation
of the same polynomial engine: right-shifting register holding the
reflected polynomial `0x14`, the 11 input bits processed LSB-first
(USB wire order), register initialised to all-ones, final register
ones-complemented. -/

/-- One MSB-side step of the polynomial division: shift the 5-bit
register left, feeding `b`; on overflow subtract `x^5+x^2+1`
(i.e. XOR `0x05`). -/
def crc5_spec_step (crc b : Nat) : Nat :=
  if ((crc >>> 4) &&& 1) ≠ b then ((crc <<< 1) ^^^ 0x05) &&& 0x1f
  else (crc <<< 1) &&& 0x1f

/-- Modelled from the spec: bit-at-a-time CRC5, polynomial `x^5+x^2+1`,
register initialised to `0x1f`, processing exactly 11 bits MSB-first,
final register ones-complemented. -/
def crc5_spec_msbFirst (n : Nat) : Nat :=
  ((List.range 11).foldl (fun crc i => crc5_spec_step crc ((n >>> (10 - i)) &&& 1))
    0x1f) ^^^ 0x1f

/-- One LSB-side (reflected) step of the same polynomial division:
shift the 5-bit register right, feeding `b`; on underflow subtract the
reflected polynomial image `0x14`. -/
def crc5_step_reflected (crc b : Nat) : Nat :=
  if (crc &&& 1) ≠ b then (crc >>> 1) ^^^ 0x14
  else crc >>> 1

/-- Bit-at-a-time CRC5 in the reflected orientation: reflected
polynomial `0x14`, register initialised to `0x1f`, processing exactly
11 bits LSB-first, final register ones-complemented. -/
def crc5_bitwise_lsbFirst (n : Nat) : Nat :=
  ((List.range 11).foldl (fun crc i => crc5_step_reflected crc ((n >>> i) &&& 1))
    0x1f) ^^^ 0x1f

/-- C1 counterexample: the table-driven `usb_crc5` does NOT agree with
the spec's MSB-first bit-at-a-time reference; already at input `0` the
table gives `0x02` while the MSB-first reference gives `0x08`. -/
theorem usb_crc5_ne_msbFirst_at_zero :
    usb_crc5 0 = 0x02 ∧ crc5_spec_msbFirst 0 = 0x08 ∧
      usb_crc5 0 ≠ crc5_spec_msbFirst 0 := by
  refine ⟨by decide, by decide, by decide⟩

set_option maxRecDepth 8000 in
/-- Exhaustive boolean check behind the amended C1. -/
theorem crc5_agree_all2048 :
    ((List.range 2048).all fun n => usb_crc5 n == crc5_bitwise_lsbFirst n) = true := by
  decide

/-- C1 (amended): for every 11-bit input `n` in `[0, 2047]`, the
table-driven `usb_crc5` returns the same value as the bit-at-a-time
CRC5 with polynomial `x^5+x^2+1` in its reflected orientation
(right-shifting register, reflected polynomial image `0x14`), register
initialised to all-ones `0x1f`, processing exactly 11 bits LSB-first,
with the final register ones-complemented. -/
theorem usb_crc5_eq_bitwise_lsbFirst :
    ∀ n : Nat, n < 2048 → usb_crc5 n = crc5_bitwise_lsbFirst n := by
  intro n hn
  exact eq_of_beq (List.all_eq_true.mp crc5_agree_all2048 n (List.mem_range.mpr hn))

/-- Witness for C1's amended theorem: the USB specification example
input `0x710` (address 0x15, endpoint 0xe), whose CRC5 is `0x05`. -/
theorem usb_crc5_eq_bitwise_lsbFirst_witness :
    usb_crc5 0x710 = crc5_bitwise_lsbFirst 0x710 :=
  usb_crc5_eq_bitwise_lsbFirst 0x710 (by decide)

/-! ## Protocol constants and data model (lines 86-163 of the source) -/

def FS_SYNC : Nat := 0x2a

def LS_SYNC : Nat := 0xd5

def PID_OUT : Nat := 0xe1

def PID_IN : Nat := 0x69

def PID_SOF : Nat := 0xa5

def PID_SETUP : Nat := 0x2d

def PID_DATA0 : Nat := 0xc3

def PID_DATA1 : Nat := 0x4b

def PID_ACK : Nat := 0xd2

def PID_NAK : Nat := 0x5a

def PID_STALL : Nat := 0x1e

def PID_PRE : Nat := 0x3c

def LOW : Int := -1

def HIGH : Int := 1

/-- The fixed 1.2 V logic threshold of lines 171-172; see
`v_threshold_eq`. -/
def v_threshold : ℚ := mkRat 6 5

theorem v_threshold_eq : v_threshold = (6 : ℚ) / 5 := by
  simp [v_threshold, Rat.mkRat_eq_divInt, Rat.divInt_eq_div]

/-- Nominal USB bit period in seconds: `1/12e6` at full speed,
`1/1.5e6` at low speed (lines 26-29); see `usb_period_eq`. -/
def usb_period (is_full_speed : Bool) : ℚ :=
  if is_full_speed then mkRat 1 12000000 else mkRat 1 1500000

theorem usb_period_eq (is_full_speed : Bool) :
    usb_period is_full_speed =
      if is_full_speed then (1 : ℚ) / 12000000 else (1 : ℚ) / 1500000 := by
  cases is_full_speed <;>
    simp [usb_period, Rat.mkRat_eq_divInt, Rat.divInt_eq_div]

/-- Decoder machine states (lines 142-147). -/
inductive MState where
  | UNKNOWN
  | IDLE
  | DETECT_SYNC
  | RECEIVE
  | GOT_SE1
  | GOT_EOP
  deriving DecidableEq, Repr

/-- Active bit window: level accumulators and closing timestamp
(`dpdm_sample`, lines 86-93).  A fresh window has zero sums. -/
structure dpdm_sample where
  dp : Int := 0
  dm : Int := 0
  next_tm : ℚ
  deriving DecidableEq, Repr

/-- Byte accumulator (`dpdm_byte`, lines 95-97). -/
structure dpdm_byte where
  nr_bits : Nat := 0
  b : Nat := 0
  deriving DecidableEq, Repr

/-- Per-packet buffer (`dpdm_data`, lines 99-103). -/
structure dpdm_data where
  byte : dpdm_byte := {}
  prev_bit : Option Nat := none
  bytes_arr : List Nat := []
  deriving DecidableEq, Repr

/-! ## Packet classifier (GOT_EOP block, lines 256-299) -/

/-- The PID-specific fields printed for a classified packet. -/
inductive Classified where
  | sof (nr_frame crc : Nat) (ok : Bool)
  | token (pid : Nat) (addr endp crc : Nat) (ok : Bool)
  | data0 (payload : List Nat) (crc : Nat) (ok : Bool)
  | ack
  | stall
  | raw
  deriving DecidableEq, Repr

/-- An emitted packet: the PID-specific fields plus the full raw byte
sequence, which the source always prints. -/
structure Packet where
  fields : Classified
  raw_bytes : List Nat
  deriving DecidableEq, Repr

/-- Python `l[-k]` for `k ≥ 1`: in range iff `k ≤ l.length`. -/
def negIdx (l : List Nat) (k : Nat) : Option Nat :=
  if k ≤ l.length then l.get? (l.length - k) else none

/-- PID dispatch of the GOT_EOP block (lines 259-295).  Out-of-range
list indexing (a Python `IndexError`) is modelled as `none`.  The
caller only invokes this with `bytes.length > 1`. -/
def classify (bytes : List Nat) : Option Packet := do
  let pid ← bytes.get? 1
  if pid = PID_SOF then
    let b3 ← bytes.get? 3
    let b2 ← bytes.get? 2
    let nr_frame := ((b3 &&& 7) <<< 8) ||| b2
    let crc := (b3 >>> 3) &&& 0x1f
    pure ⟨.sof nr_frame crc (usb_crc5 nr_frame == crc), bytes⟩
  else if pid = PID_SETUP ∨ pid = PID_IN then
    let b3 ← bytes.get? 3
    let b2 ← bytes.get? 2
    let addrendp := ((b3 &&& 7) <<< 8) ||| b2
    let addr := b2 &&& 0x7f
    let endp := ((b3 &&& 7) <<< 1) ||| ((b2 &&& 0x80) >>> 7)
    let crc := (b3 >>> 3) &&& 0x1f
    pure ⟨.token pid addr endp crc (usb_crc5 addrendp == crc), bytes⟩
  else if pid = PID_DATA0 then
    let bL1 ← negIdx bytes 1
    let bL2 ← negIdx bytes 2
    let crc := (bL1 <<< 8) ||| bL2
    let payload := (bytes.take (bytes.length - 2)).drop 2
    pure ⟨.data0 payload crc (usb_crc16 payload == crc), bytes⟩
  else if pid = PID_ACK then
    pure ⟨.ack, bytes⟩
  else if pid = PID_STALL then
    pure ⟨.stall, bytes⟩
  else
    pure ⟨.raw, bytes⟩

/-! ## The per-sample decoding loop (lines 165-303) -/

/-- Observable events: the SE1 warning line and an emitted packet.
`Out.packet none` records that the emission attempt raised an
`IndexError` inside the classifier. -/
inductive Out where
  | se1Warning (tm : ℚ)
  | packet (p : Option Packet)
  deriving DecidableEq, Repr

/-- Lines 199-212: EOP / SE1 detection for a resolved bit pair.
Returns the new machine state and SE0-window counter. -/
def resolveEop (fs : Bool) (se0_cnt : Nat) (st : MState) (dp dm : Nat) :
    MState × Nat :=
  if dp ≠ dm then
    let st1 :=
      if se0_cnt ≥ 2 then
        if fs = true ∧ dp > dm then MState.GOT_EOP
        else if fs = false ∧ dp < dm then MState.GOT_EOP
        else st
      else st
    (st1, 0)
  else if dp = 0 ∧ dm = 0 then
    (st, se0_cnt + 1)
  else
    (MState.GOT_SE1, se0_cnt)

/-- Lines 222-235: NRZI decode of a resolved bit pair and LSB-first
byte assembly; on the eighth bit the byte is appended to the byte
sequence and, in DETECT_SYNC, the raw bit seeds the NRZI
predecessor. -/
def decodeBit (st : MState) (d : dpdm_data) (dp dm : Nat) : dpdm_data :=
  let raw_bit : Nat := if dp > dm then 1 else 0
  let bp : Nat × Option Nat :=
    match d.prev_bit with
    | some pb => ((if pb = raw_bit then 1 else 0), some raw_bit)
    | none => (raw_bit, d.prev_bit)
  let byte1 : dpdm_byte :=
    { b := d.byte.b ||| (bp.1 <<< d.byte.nr_bits), nr_bits := d.byte.nr_bits + 1 }
  if byte1.nr_bits = 8 then
    { byte := {},
      prev_bit := if st = .DETECT_SYNC then some raw_bit else bp.2,
      bytes_arr := d.bytes_arr ++ [byte1.b] }
  else
    { d with byte := byte1, prev_bit := bp.2 }

/-- Lines 191-238: add the sample's levels into the active bit window;
when the timestamp reaches or passes the window end, resolve the bit
pair by majority vote, detect EOP/SE1, and otherwise decode the bit
and open the next window at `previous window_end + period`. -/
def oversampleDecode (fs : Bool) (pd : ℚ) (se0_cnt : Nat) (st : MState)
    (tm : ℚ) (dp_v dm_v : Int) (smp0 : dpdm_sample) (d : Option dpdm_data) :
    MState × Nat × Option dpdm_sample × Option dpdm_data × List Out :=
  let smp := { smp0 with dp := smp0.dp + dp_v, dm := smp0.dm + dm_v }
  if tm ≥ smp.next_tm then
    let dp : Nat := if smp.dp > 0 then 1 else 0
    let dm : Nat := if smp.dm > 0 then 1 else 0
    let r := resolveEop fs se0_cnt st dp dm
    let outs : List Out := if dp = dm ∧ dp ≠ 0 then [Out.se1Warning tm] else []
    if r.1 = .GOT_SE1 ∨ r.1 = .GOT_EOP then
      if r.1 = .GOT_SE1 then (.IDLE, r.2, none, none, outs)
      else (r.1, r.2, none, d, outs)
    else
      let d1 := decodeBit r.1 (d.getD {}) dp dm
      (r.1, r.2, some { dp := 0, dm := 0, next_tm := qadd smp.next_tm pd }, some d1, outs)
  else
    (st, se0_cnt, some smp, d, [])

/-- Lines 240-254: once exactly one byte has been assembled in
DETECT_SYNC, check it against the speed-appropriate SYNC pattern;
on a match reset the byte accumulator and enter RECEIVE, otherwise
discard window and buffer and revert to IDLE. -/
def checkSync (fs : Bool) (st : MState) (smp : Option dpdm_sample)
    (d : Option dpdm_data) :
    MState × Option dpdm_sample × Option dpdm_data :=
  if st = .DETECT_SYNC then
    match d with
    | some dd =>
      if dd.bytes_arr.length = 1 then
        let sync := dd.bytes_arr.headD 0
        if fs = true ∧ sync = FS_SYNC then (.RECEIVE, smp, some { dd with byte := {} })
        else if fs = false ∧ sync = LS_SYNC then (.RECEIVE, smp, some { dd with byte := {} })
        else (.IDLE, none, none)
      else (st, smp, d)
    | none => (st, smp, d)
  else (st, smp, d)

/-- The running decoder state: machine state, SE0-window counter,
inferred speed and period, active bit window, per-packet buffer, and
the previous sample's timestamp and logical levels (lines 149-163). -/
structure DecState where
  state : MState
  se0_cnt : Nat
  full_speed : Option Bool
  period : Option ℚ
  sample : Option dpdm_sample
  data : Option dpdm_data
  prev_tm : Option ℚ
  prev_dp : Option Int
  prev_dm : Option Int
  deriving DecidableEq, Repr

/-- Initial decoder state; `speed_hint` is the `-s` option
(`none` for "auto"). -/
def initState (speed_hint : Option Bool) : DecState :=
  { state := .UNKNOWN, se0_cnt := 0, full_speed := speed_hint, period := none,
    sample := none, data := none, prev_tm := none, prev_dp := none,
    prev_dm := none }

/-- Lines 256-299: on GOT_EOP, if more than one byte was assembled,
classify and emit the byte sequence; then unconditionally revert to
IDLE, discarding window and buffer. -/
def emitPacket (s : DecState) : DecState × List Out :=
  if s.state = .GOT_EOP then
    let outs : List Out :=
      match s.data with
      | some dd =>
        if dd.bytes_arr.length > 1 then [Out.packet (classify dd.bytes_arr)] else []
      | none => []
    ({ s with state := .IDLE, sample := none, data := none }, outs)
  else (s, [])

/-- Lines 165-254 and 301-303 of the per-sample loop body: logical
level classification (threshold 1.2 V), speed and period inference,
SYNC-edge detection, oversampling window processing, the SYNC byte
check, and the previous-sample bookkeeping — everything except the
GOT_EOP emission block. -/
def toLevel (v : ℚ) : Int :=
  if v < v_threshold then LOW else HIGH

/-- Lines 174-176: infer full speed from the first differential
sample (D+ high means full speed) unless already known. -/
def inferSpeed (fsOld : Option Bool) (dp_v dm_v : Int) : Option Bool :=
  match fsOld with
  | none => if dp_v ≠ dm_v then some (dp_v = HIGH) else none
  | some b => some b

/-- Lines 178-182: once the speed is known, a previous sample exists
and no period is set yet, derive the bit period and enter IDLE. -/
def inferPeriod (full_speed : Option Bool) (periodOld : Option ℚ)
    (prev_tm : Option ℚ) (st : MState) : Option ℚ × MState :=
  match full_speed, periodOld, prev_tm with
  | some fs, none, some _ => (some (usb_period fs), MState.IDLE)
  | _, _, _ => (periodOld, st)

/-- Lines 184-188: in IDLE, a change of either logical level against
the previous sample opens a fresh bit window (ending one period after
the edge) and a fresh packet buffer, entering DETECT_SYNC. -/
def detectEdge (st : MState) (prev_dp prev_dm : Option Int) (dp_v dm_v : Int)
    (tm pd : ℚ) (smp : Option dpdm_sample) (d : Option dpdm_data) :
    MState × Option dpdm_sample × Option dpdm_data :=
  if st = .IDLE ∧ (prev_dp ≠ some dp_v ∨ prev_dm ≠ some dm_v) then
    (MState.DETECT_SYNC, some { next_tm := qadd tm pd }, some ({} : dpdm_data))
  else (st, smp, d)

def stepPre (s : DecState) (inp : ℚ × ℚ × ℚ) : DecState × List Out :=
  let tm := inp.1
  let dp_v : Int := toLevel inp.2.1
  let dm_v : Int := toLevel inp.2.2
  let full_speed : Option Bool := inferSpeed s.full_speed dp_v dm_v
  let ps : Option ℚ × MState := inferPeriod full_speed s.period s.prev_tm s.state
  let pd := ps.1.getD 0
  let fs := full_speed.getD false
  let t1 : MState × Option dpdm_sample × Option dpdm_data :=
    detectEdge ps.2 s.prev_dp s.prev_dm dp_v dm_v tm pd s.sample s.data
  let t2 : MState × Nat × Option dpdm_sample × Option dpdm_data × List Out :=
    match t1.2.1 with
    | some smp => oversampleDecode fs pd s.se0_cnt t1.1 tm dp_v dm_v smp t1.2.2
    | none => (t1.1, s.se0_cnt, none, t1.2.2, [])
  let t3 := checkSync fs t2.1 t2.2.2.1 t2.2.2.2.1
  ({ state := t3.1, se0_cnt := t2.2.1, full_speed := full_speed, period := ps.1,
     sample := t3.2.1, data := t3.2.2,
     prev_tm := some tm, prev_dp := some dp_v, prev_dm := some dm_v },
   t2.2.2.2.2)

/-- One full iteration of the per-sample loop (lines 165-303). -/
def step (s : DecState) (inp : ℚ × ℚ × ℚ) : DecState × List Out :=
  let r1 := stepPre s inp
  let r2 := emitPacket r1.1
  (r2.1, r1.2 ++ r2.2)

/-- Fold one sample into a running (state, emitted events) pair. -/
def runStep (acc : DecState × List Out) (inp : ℚ × ℚ × ℚ) : DecState × List Out :=
  let r := step acc.1 inp
  (r.1, acc.2 ++ r.2)

/-- Run the decoder from the initial state over a sample stream,
collecting emitted diagnostics and packets in order. -/
def runDecoder (speed_hint : Option Bool) (samples : List (ℚ × ℚ × ℚ)) :
    DecState × List Out :=
  samples.foldl runStep (initState speed_hint, [])

/-! ## Concrete full-speed demonstration streams

One line-level sample per bit period (`1/12e6` s); `Jlev`/`Klev` are
the two full-speed differential states, `SE0lev`/`SE1lev` both-low /
both-high, as voltage pairs against the 1.2 V threshold. -/

def vHI : ℚ := mkRat 2 1

def vLO : ℚ := mkRat 0 1

def Jlev : ℚ × ℚ := (vHI, vLO)

def Klev : ℚ × ℚ := (vLO, vHI)

def SE0lev : ℚ × ℚ := (vLO, vLO)

def SE1lev : ℚ × ℚ := (vHI, vHI)

/-- Turn a list of line levels into timestamped samples, one bit
period apart, starting at sample index `k0`. -/
def mkStream (k0 : Nat) (l : List (ℚ × ℚ)) : List (ℚ × ℚ × ℚ) :=
  l.enum.map fun li => (mkRat (k0 + li.1 : Nat) 12000000, li.2.1, li.2.2)

/-- Samples 0-11: idle, an attempt started by a J-to-K edge, an SE1
fault one window later, then idle J levels. -/
def demoA : List (ℚ × ℚ × ℚ) :=
  mkStream 0 [Jlev, Jlev, Klev, Klev, SE1lev, Jlev, Jlev, Jlev, Jlev, Jlev, Jlev, Jlev]

/-- Samples 12-23: the spurious all-J attempt ends in a SYNC mismatch,
then a J-to-K edge opens a fresh attempt and the SYNC pattern
KJKJKJKK begins. -/
def demoB : List (ℚ × ℚ × ℚ) :=
  mkStream 12 [Jlev, Jlev, Klev, Klev, Jlev, Klev, Jlev, Klev, Jlev, Klev, Klev, Jlev]

/-- Samples 24-33: the ACK PID byte `0xd2` in NRZI line levels,
then the EOP framing SE0, SE0, J. -/
def demoC : List (ℚ × ℚ × ℚ) :=
  mkStream 24 [Jlev, Klev, Jlev, Jlev, Klev, Klev, Klev, SE0lev, SE0lev, Jlev]

/-- An SE1 fault mid-stream followed by a complete SYNC+ACK packet
closed by an EOP. -/
def demoAck : List (ℚ × ℚ × ℚ) := demoA ++ demoB ++ demoC

/-- Samples 0-14: idle, a complete SYNC acquisition (KJKJKJKK), two
SE0 windows, an SE1 fault that aborts the attempt without resetting
the SE0 counter, and a J level whose edge opens a fresh attempt. -/
def demoStale : List (ℚ × ℚ × ℚ) :=
  mkStream 0 [Jlev, Jlev, Klev, Klev, Jlev, Klev, Jlev, Klev, Jlev, Klev, Klev,
    SE0lev, SE0lev, SE1lev, Jlev]

/-- Decoder state and events after `demoA`. -/
def demoAccA : DecState × List Out :=
  ({ state := .DETECT_SYNC, se0_cnt := 0, full_speed := some true,
     period := some (mkRat 1 12000000),
     sample := some { dp := 0, dm := 0, next_tm := mkRat 1 1000000 },
     data := some { byte := { nr_bits := 6, b := 63 }, prev_bit := none, bytes_arr := [] },
     prev_tm := some (mkRat 11 12000000), prev_dp := some 1, prev_dm := some (-1) },
   [Out.se1Warning (mkRat 1 3000000)])

/-- Decoder state and events after `demoA ++ demoB`. -/
def demoAccB : DecState × List Out :=
  ({ state := .RECEIVE, se0_cnt := 0, full_speed := some true,
     period := some (mkRat 1 12000000),
     sample := some { dp := 0, dm := 0, next_tm := mkRat 1 500000 },
     data := some { byte := { nr_bits := 1, b := 0 }, prev_bit := some 1, bytes_arr := [42] },
     prev_tm := some (mkRat 23 12000000), prev_dp := some 1, prev_dm := some (-1) },
   [Out.se1Warning (mkRat 1 3000000)])

/-- Decoder state and events after the full `demoAck` stream. -/
def demoAckAcc : DecState × List Out :=
  ({ state := .IDLE, se0_cnt := 0, full_speed := some true,
     period := some (mkRat 1 12000000), sample := none, data := none,
     prev_tm := some (mkRat 11 4000000), prev_dp := some 1, prev_dm := some (-1) },
   [Out.se1Warning (mkRat 1 3000000),
    Out.packet (some ⟨Classified.ack, [FS_SYNC, PID_ACK]⟩)])

/-- Decoder state and events after the full `demoStale` stream. -/
def demoStaleAcc : DecState × List Out :=
  ({ state := .DETECT_SYNC, se0_cnt := 2, full_speed := some true,
     period := some (mkRat 1 12000000),
     sample := some { dp := 1, dm := -1, next_tm := mkRat 1 800000 },
     data := some { byte := { nr_bits := 0, b := 0 }, prev_bit := none, bytes_arr := [] },
     prev_tm := some (mkRat 7 6000000), prev_dp := some 1, prev_dm := some (-1) },
   [Out.se1Warning (mkRat 13 12000000)])

set_option maxRecDepth 6000 in
theorem demoA_run : List.foldl runStep (initState none, []) demoA = demoAccA := by
  decide

set_option maxRecDepth 6000 in
theorem demoB_run : List.foldl runStep demoAccA demoB = demoAccB := by
  decide

set_option maxRecDepth 6000 in
theorem demoC_run : List.foldl runStep demoAccB demoC = demoAckAcc := by
  decide

/-- Running the decoder over `demoAck` yields exactly one SE1 warning
followed by one ACK packet, ending at IDLE. -/
theorem demoAck_run : runDecoder none demoAck = demoAckAcc := by
  show List.foldl runStep (initState none, []) (demoA ++ demoB ++ demoC) = demoAckAcc
  rw [List.foldl_append, List.foldl_append, demoA_run, demoB_run, demoC_run]

set_option maxRecDepth 8000 in
theorem demoStale_run : runDecoder none demoStale = demoStaleAcc := by
  decide

/-! ## Claim theorems -/

/-- C2: a recognized token PID whose byte sequence is too short to
carry its fields makes the classifier read past the end of the
sequence.  At EOP with bytes `[SYNC, SOF]` (length 2 > 1) and with
3-byte SETUP/IN packets, classification raises an `IndexError`
(modelled as `none`) instead of emitting the raw byte sequence. -/
theorem classify_short_token_index_error :
    ([FS_SYNC, PID_SOF] : List Nat).length > 1 ∧
      classify [FS_SYNC, PID_SOF] = none ∧
      classify [FS_SYNC, PID_SETUP, 0x15] = none ∧
      classify [FS_SYNC, PID_IN, 0x15] = none := by
  refine ⟨by decide, by decide, by decide, by decide⟩

/-- C8: the OUT PID `0xe1` is NOT dispatched like SETUP/IN.  A
well-formed OUT token reaching classification is emitted unclassified
(raw), with no address/endpoint/CRC5 extraction, while the same byte
sequence with an IN PID extracts the token fields. -/
theorem classify_out_pid_raw :
    classify [FS_SYNC, PID_OUT, 0x15, 0xe0] =
      some ⟨Classified.raw, [FS_SYNC, PID_OUT, 0x15, 0xe0]⟩ ∧
      classify [FS_SYNC, PID_IN, 0x15, 0xe0] =
        some ⟨Classified.token PID_IN 0x15 0x0 0x1c (usb_crc5 0x15 == 0x1c),
          [FS_SYNC, PID_IN, 0x15, 0xe0]⟩ := by
  refine ⟨by decide, by decide⟩

/-- C4: for a resolved differential pair (`dp ≠ dm`) seen while
decoding a packet (state DETECT_SYNC or RECEIVE): with two
immediately preceding SE0 windows (`se0_cnt ≥ 2`) the state becomes
GOT_EOP exactly when the polarity matches J for the active speed
(full speed `dp > dm`, low speed `dp < dm`); otherwise the state is
unchanged, so the pair is processed as an ordinary data bit; and the
SE0 counter is reset to 0 in every `dp ≠ dm` case. -/
theorem resolveEop_differential (fs : Bool) (se0_cnt : Nat) (st : MState)
    (dp dm : Nat) (hne : dp ≠ dm)
    (hst : st = .DETECT_SYNC ∨ st = .RECEIVE) :
    (resolveEop fs se0_cnt st dp dm).2 = 0 ∧
    (se0_cnt ≥ 2 →
      ((resolveEop fs se0_cnt st dp dm).1 = .GOT_EOP ↔
        ((fs = true ∧ dp > dm) ∨ (fs = false ∧ dp < dm)))) ∧
    (se0_cnt < 2 → (resolveEop fs se0_cnt st dp dm).1 = st) ∧
    (¬((fs = true ∧ dp > dm) ∨ (fs = false ∧ dp < dm)) →
      (resolveEop fs se0_cnt st dp dm).1 = st) := by
  have hstne : st ≠ MState.GOT_EOP := by rcases hst with h | h <;> subst h <;> simp
  unfold resolveEop
  rw [if_pos hne]
  refine ⟨rfl, ?_, ?_, ?_⟩
  · intro h2
    rw [if_pos h2]
    constructor
    · intro hEop
      by_contra hpol
      rw [if_neg (fun h => hpol (Or.inl h)), if_neg (fun h => hpol (Or.inr h))] at hEop
      exact hstne hEop
    · intro hpol
      rcases hpol with ⟨hf, hgt⟩ | ⟨hf, hlt⟩
      · subst hf
        simp [hgt]
      · subst hf
        simp [hlt]
  · intro hlt
    rw [if_neg (by omega)]
  · intro hpol
    split_ifs with h2 hA hB
    · exact absurd (Or.inl hA) hpol
    · exact absurd (Or.inr hB) hpol
    · rfl
    · rfl
theorem resolveEop_differential_witness :
    (resolveEop true 2 MState.RECEIVE 1 0).2 = 0 ∧
    (2 ≥ 2 →
      ((resolveEop true 2 MState.RECEIVE 1 0).1 = .GOT_EOP ↔
        ((true = true ∧ 1 > 0) ∨ (true = false ∧ 1 < 0)))) ∧
    (2 < 2 → (resolveEop true 2 MState.RECEIVE 1 0).1 = MState.RECEIVE) ∧
    (¬((true = true ∧ 1 > 0) ∨ (true = false ∧ 1 < 0)) →
      (resolveEop true 2 MState.RECEIVE 1 0).1 = MState.RECEIVE) :=
  resolveEop_differential true 2 MState.RECEIVE 1 0 (by decide) (Or.inr rfl)

/-- C5: after SYNC acquisition (a previous raw bit exists) the
decoded data bit is 1 exactly when the raw bit (`1 if dp > dm else
0`) equals the previous raw bit; it is packed LSB-first at position
`nr_bits`; on the eighth bit the byte is appended to the byte
sequence and a fresh empty accumulator begins; the previous raw bit
then tracks the current raw bit; and the previous raw bit is seeded
exactly at the boundary where the SYNC byte completes in
DETECT_SYNC. -/
theorem decodeBit_nrzi (st : MState) (d : dpdm_data) (dp dm pb : Nat)
    (hprev : d.prev_bit = some pb) :
    (let raw : Nat := if dp > dm then 1 else 0
     let bit : Nat := if pb = raw then 1 else 0
     let b1 : Nat := d.byte.b ||| (bit <<< d.byte.nr_bits)
     (d.byte.nr_bits + 1 = 8 →
       (decodeBit st d dp dm).bytes_arr = d.bytes_arr ++ [b1] ∧
       (decodeBit st d dp dm).byte = {}) ∧
     (d.byte.nr_bits + 1 ≠ 8 →
       (decodeBit st d dp dm).byte = { nr_bits := d.byte.nr_bits + 1, b := b1 } ∧
       (decodeBit st d dp dm).bytes_arr = d.bytes_arr) ∧
     (st ≠ .DETECT_SYNC → (decodeBit st d dp dm).prev_bit =
       some raw)) ∧
    (∀ d2 : dpdm_data, d2.prev_bit = none → d2.byte.nr_bits = 7 →
      (decodeBit .DETECT_SYNC d2 dp dm).prev_bit =
        some (if dp > dm then 1 else 0)) := by
  constructor
  · intro raw bit b1
    refine ⟨?_, ?_, ?_⟩
    · intro h8
      constructor <;> simp [decodeBit, hprev, h8]
    · intro h8
      constructor <;> simp [decodeBit, hprev, h8]
    · intro hds
      by_cases h8 : d.byte.nr_bits + 1 = 8
      · simp [decodeBit, hprev, h8, if_neg hds]
      · simp [decodeBit, hprev, h8]
  · intro d2 hp2 h7
    simp [decodeBit, hp2, h7]
theorem decodeBit_nrzi_witness :
    ((0 + 1 = 8 →
       (decodeBit MState.RECEIVE ⟨{}, some 1, []⟩ 1 0).bytes_arr = [] ++ [1 ||| (1 <<< 0)] ∧
       (decodeBit MState.RECEIVE ⟨{}, some 1, []⟩ 1 0).byte = {}) ∧
     (0 + 1 ≠ 8 →
       (decodeBit MState.RECEIVE ⟨{}, some 1, []⟩ 1 0).byte = { nr_bits := 0 + 1, b := 1 } ∧
       (decodeBit MState.RECEIVE ⟨{}, some 1, []⟩ 1 0).bytes_arr = [])) ∧
    (decodeBit MState.DETECT_SYNC ⟨⟨7, 0x2a⟩, none, []⟩ 1 0).prev_bit = some 1 := by
  have h := decodeBit_nrzi MState.RECEIVE ⟨{}, some 1, []⟩ 1 0 1 rfl
  refine ⟨⟨?_, ?_⟩, ?_⟩
  · intro h8
    have := h.1.1 h8
    simpa using this
  · intro h8
    have := h.1.2.1 h8
    simpa using this
  · have := h.2 ⟨⟨7, 0x2a⟩, none, []⟩ rfl rfl
    simpa using this

/-- C6: a bit window stays open strictly before `window_end` (with the
sample's levels accumulated) and closes the first time `tm ≥
window_end` (a `≥` comparison), the closing sample's levels included
in the closing window's sums; the resolved levels are 1 exactly when
the accumulated sum is positive (a zero sum resolves to LOW); and the
successor window, whenever one opens, ends at `previous window_end +
period`, never at the arriving sample's timestamp. -/
theorem window_close_schedule (fs : Bool) (pd : ℚ) (se0_cnt : Nat)
    (st : MState) (tm : ℚ) (dp_v dm_v : Int) (smp : dpdm_sample)
    (d : Option dpdm_data) :
    (tm < smp.next_tm →
      oversampleDecode fs pd se0_cnt st tm dp_v dm_v smp d =
        (st, se0_cnt,
         some { dp := smp.dp + dp_v, dm := smp.dm + dm_v, next_tm := smp.next_tm },
         d, [])) ∧
    (tm ≥ smp.next_tm →
      (let dpR : Nat := if smp.dp + dp_v > 0 then 1 else 0
       let dmR : Nat := if smp.dm + dm_v > 0 then 1 else 0
       let r := resolveEop fs se0_cnt st dpR dmR
       let o := oversampleDecode fs pd se0_cnt st tm dp_v dm_v smp d
       o.2.1 = r.2 ∧
       (r.1 ≠ MState.GOT_SE1 → o.1 = r.1) ∧
       (o.2.2.1 = none ∨
        o.2.2.1 = some { dp := 0, dm := 0, next_tm := qadd smp.next_tm pd }) ∧
       (r.1 ≠ MState.GOT_SE1 → r.1 ≠ MState.GOT_EOP →
         o.2.2.1 = some { dp := 0, dm := 0, next_tm := qadd smp.next_tm pd } ∧
         o.2.2.2.1 = some (decodeBit r.1 (d.getD {}) dpR dmR)))) := by
  constructor
  · intro h
    simp [oversampleDecode, not_le.mpr h]
  · intro h
    intro dpR dmR r o
    have ho : o =
        (if r.1 = MState.GOT_SE1 ∨ r.1 = MState.GOT_EOP then
          if r.1 = MState.GOT_SE1 then
            (MState.IDLE, r.2, none, none,
              if dpR = dmR ∧ dpR ≠ 0 then [Out.se1Warning tm] else [])
          else (r.1, r.2, none, d,
              if dpR = dmR ∧ dpR ≠ 0 then [Out.se1Warning tm] else [])
        else
          (r.1, r.2, some { dp := 0, dm := 0, next_tm := qadd smp.next_tm pd },
            some (decodeBit r.1 (d.getD {}) dpR dmR),
            if dpR = dmR ∧ dpR ≠ 0 then [Out.se1Warning tm] else [])) := by
      show oversampleDecode fs pd se0_cnt st tm dp_v dm_v smp d = _
      simp only [oversampleDecode]
      rw [if_pos (show tm ≥
        ({ smp with dp := smp.dp + dp_v, dm := smp.dm + dm_v } : dpdm_sample).next_tm
        from h)]
    rw [ho]
    by_cases hse1 : r.1 = MState.GOT_SE1
    · simp [hse1]
    · by_cases heop : r.1 = MState.GOT_EOP
      · simp [hse1, heop]
      · simp [hse1, heop]
theorem window_close_schedule_witness :
    ((mkRat 1 1000000 : ℚ) < (mkRat 1 800000 : ℚ) →
      oversampleDecode true (mkRat 1 12000000) 0 MState.RECEIVE (mkRat 1 1000000) 1 (-1)
          ⟨0, 0, mkRat 1 800000⟩ (some {}) =
        (MState.RECEIVE, 0, some { dp := 0 + 1, dm := 0 + -1, next_tm := mkRat 1 800000 },
         some {}, [])) ∧
    ((mkRat 1 1000000 : ℚ) ≥ (mkRat 1 800000 : ℚ) →
      (let dpR : Nat := if (0 : Int) + 1 > 0 then 1 else 0
       let dmR : Nat := if (0 : Int) + -1 > 0 then 1 else 0
       let r := resolveEop true 0 MState.RECEIVE dpR dmR
       let o := oversampleDecode true (mkRat 1 12000000) 0 MState.RECEIVE (mkRat 1 1000000)
         1 (-1) ⟨0, 0, mkRat 1 800000⟩ (some {})
       o.2.1 = r.2 ∧
       (r.1 ≠ MState.GOT_SE1 → o.1 = r.1) ∧
       (o.2.2.1 = none ∨
        o.2.2.1 = some { dp := 0, dm := 0, next_tm := qadd (mkRat 1 800000) (mkRat 1 12000000) }) ∧
       (r.1 ≠ MState.GOT_SE1 → r.1 ≠ MState.GOT_EOP →
         o.2.2.1 = some { dp := 0, dm := 0, next_tm := qadd (mkRat 1 800000) (mkRat 1 12000000) } ∧
         o.2.2.2.1 = some (decodeBit r.1 ((some ({} : dpdm_data)).getD {}) dpR dmR)))) :=
  window_close_schedule true (mkRat 1 12000000) 0 MState.RECEIVE (mkRat 1 1000000)
    1 (-1) ⟨0, 0, mkRat 1 800000⟩ (some {})

/-- C7: a window resolving to SE1 (both sums positive) emits exactly
one SE1 diagnostic carrying the triggering timestamp, discards the
in-progress packet buffer and bit window, and resumes at IDLE — the
SE0 counter untouched and the decoder alive: on the `demoAck` stream
the SE1 fault is followed by a fully decoded SYNC+ACK packet and a
final IDLE state. -/
theorem se1_fault_recovery (fs : Bool) (pd : ℚ) (se0_cnt : Nat)
    (st : MState) (tm : ℚ) (dp_v dm_v : Int) (smp : dpdm_sample)
    (d : Option dpdm_data)
    (hclose : tm ≥ smp.next_tm) (hdp : smp.dp + dp_v > 0)
    (hdm : smp.dm + dm_v > 0) :
    oversampleDecode fs pd se0_cnt st tm dp_v dm_v smp d =
      (MState.IDLE, se0_cnt, none, none, [Out.se1Warning tm]) ∧
    (runDecoder none demoAck).2 =
      [Out.se1Warning (mkRat 1 3000000),
       Out.packet (some ⟨Classified.ack, [FS_SYNC, PID_ACK]⟩)] ∧
    (runDecoder none demoAck).1.state = MState.IDLE := by
  refine ⟨?_, ?_, ?_⟩
  · simp [oversampleDecode, resolveEop, hclose, hdp, hdm]
  · rw [demoAck_run]
    rfl
  · rw [demoAck_run]
    rfl
theorem se1_fault_recovery_witness :
    oversampleDecode true (mkRat 1 12000000) 0 MState.RECEIVE (mkRat 1 1000000) 1 1
      ⟨0, 0, mkRat 1 1000000⟩ none =
      (MState.IDLE, 0, none, none, [Out.se1Warning (mkRat 1 1000000)]) ∧
    (runDecoder none demoAck).2 =
      [Out.se1Warning (mkRat 1 3000000),
       Out.packet (some ⟨Classified.ack, [FS_SYNC, PID_ACK]⟩)] ∧
    (runDecoder none demoAck).1.state = MState.IDLE :=
  se1_fault_recovery true (mkRat 1 12000000) 0 MState.RECEIVE (mkRat 1 1000000) 1 1
    ⟨0, 0, mkRat 1 1000000⟩ none (by decide) (by decide) (by decide)

/-- C9: the SE0-window counter survives packet-attempt aborts: an
SE1-resolved window returns it unchanged, the emission/reset phase
never touches it, and on the `demoStale` stream the two SE0 windows
counted during the SE1-aborted attempt make the very first resolved J
window of the next attempt — whose buffer holds no bytes and which
saw no SE0 windows of its own — transition to GOT_EOP. -/
theorem stale_se0_spurious_eop :
    (∀ (fs : Bool) (se0_cnt : Nat) (st : MState),
      resolveEop fs se0_cnt st 1 1 = (MState.GOT_SE1, se0_cnt)) ∧
    (∀ (s : DecState) (inp : ℚ × ℚ × ℚ),
      (step s inp).1.se0_cnt = (stepPre s inp).1.se0_cnt) ∧
    ((runDecoder none demoStale).1.state = MState.DETECT_SYNC ∧
     (runDecoder none demoStale).1.se0_cnt = 2 ∧
     (runDecoder none demoStale).1.data =
       some { byte := {}, prev_bit := none, bytes_arr := [] } ∧
     (stepPre (runDecoder none demoStale).1 (mkRat 15 12000000, vHI, vLO)).1.state =
       MState.GOT_EOP) := by
  refine ⟨fun fs se0 st => rfl, fun s inp => ?_, ?_, ?_, ?_, ?_⟩
  · show (emitPacket (stepPre s inp).1).1.se0_cnt = (stepPre s inp).1.se0_cnt
    unfold emitPacket
    split
    · rfl
    · rfl
  · rw [demoStale_run]
    rfl
  · rw [demoStale_run]
    rfl
  · rw [demoStale_run]
    rfl
  · rw [demoStale_run]
    decide

/-- The oversampling phase emits at most an SE1 warning, never a
packet. -/
theorem oversampleDecode_outs (fs : Bool) (pd : ℚ) (se0_cnt : Nat)
    (st : MState) (tm : ℚ) (dp_v dm_v : Int) (smp : dpdm_sample)
    (d : Option dpdm_data) :
    (oversampleDecode fs pd se0_cnt st tm dp_v dm_v smp d).2.2.2.2 = [] ∨
    (oversampleDecode fs pd se0_cnt st tm dp_v dm_v smp d).2.2.2.2 =
      [Out.se1Warning tm] := by
  simp only [oversampleDecode]
  repeat' split
  all_goals simp

/-- The pre-emission phase emits at most an SE1 warning. -/
theorem stepPre_outs (s : DecState) (inp : ℚ × ℚ × ℚ) :
    (stepPre s inp).2 = [] ∨ (stepPre s inp).2 = [Out.se1Warning inp.1] := by
  simp only [stepPre]
  split
  · exact oversampleDecode_outs _ _ _ _ _ _ _ _ _
  · left
    rfl

/-- C3: a packet event is emitted in a step exactly when the decoder
reaches GOT_EOP with more than one accumulated byte (GOT_EOP with at
most one byte emits nothing); and whenever GOT_EOP is reached the
decoder reverts to IDLE with the bit window and packet buffer
discarded. -/
theorem got_eop_emission_iff (s : DecState) (inp : ℚ × ℚ × ℚ) :
    ((∃ p, Out.packet p ∈ (step s inp).2) ↔
      ((stepPre s inp).1.state = MState.GOT_EOP ∧
        ∃ dd, (stepPre s inp).1.data = some dd ∧ dd.bytes_arr.length > 1)) ∧
    ((stepPre s inp).1.state = MState.GOT_EOP →
      (step s inp).1.state = MState.IDLE ∧ (step s inp).1.sample = none ∧
        (step s inp).1.data = none) := by
  have hstep : step s inp =
      ((emitPacket (stepPre s inp).1).1,
        (stepPre s inp).2 ++ (emitPacket (stepPre s inp).1).2) := rfl
  constructor
  · constructor
    · rintro ⟨p, hp⟩
      rw [hstep] at hp
      rcases List.mem_append.mp hp with h | h
      · rcases stepPre_outs s inp with ho | ho <;> rw [ho] at h <;> simp at h
      · by_cases hg : (stepPre s inp).1.state = MState.GOT_EOP
        · refine ⟨hg, ?_⟩
          rcases hd : (stepPre s inp).1.data with _ | dd
          · simp [emitPacket, hg, hd] at h
          · by_cases hl : dd.bytes_arr.length > 1
            · exact ⟨dd, rfl, hl⟩
            · simp [emitPacket, hg, hd, hl] at h
        · simp [emitPacket, hg] at h
    · rintro ⟨hg, dd, hd, hl⟩
      refine ⟨classify dd.bytes_arr, ?_⟩
      rw [hstep]
      refine List.mem_append.mpr (Or.inr ?_)
      simp [emitPacket, hg, hd, hl]
  · intro hg
    rw [hstep]
    simp [emitPacket, hg]
theorem got_eop_emission_iff_witness :
    ((∃ p, Out.packet p ∈ (step (initState none) (mkRat 0 1, vHI, vLO)).2) ↔
      ((stepPre (initState none) (mkRat 0 1, vHI, vLO)).1.state = MState.GOT_EOP ∧
        ∃ dd, (stepPre (initState none) (mkRat 0 1, vHI, vLO)).1.data = some dd ∧
          dd.bytes_arr.length > 1)) ∧
    ((stepPre (initState none) (mkRat 0 1, vHI, vLO)).1.state = MState.GOT_EOP →
      (step (initState none) (mkRat 0 1, vHI, vLO)).1.state = MState.IDLE ∧
        (step (initState none) (mkRat 0 1, vHI, vLO)).1.sample = none ∧
        (step (initState none) (mkRat 0 1, vHI, vLO)).1.data = none) :=
  got_eop_emission_iff (initState none) (mkRat 0 1, vHI, vLO)

/-- Fold eight resolved pairs through the DETECT_SYNC byte assembler
starting from a fresh packet buffer. -/
def syncByteFold (pairs : List (Nat × Nat)) : dpdm_data :=
  pairs.foldl (fun d pr => decodeBit MState.DETECT_SYNC d pr.1 pr.2) {}

/-- The raw line bit of a resolved pair: `1 if dp > dm else 0`. -/
def rawBit (pr : Nat × Nat) : Nat := if pr.1 > pr.2 then 1 else 0

/-- C10: every packet attempt starts with the previous-raw-bit state
unset; while it is unset and the first byte is incomplete the
assembler packs the raw differential bit (no NRZI applied) LSB-first
and leaves the previous-raw-bit unset; consequently the first
assembled byte of an attempt is the raw LSB-first packing of the
eight resolved pairs; and the SYNC constants `0x2a` (full speed) and
`0xd5` (low speed) are exactly the raw line-level packings of the
KJKJKJKK SYNC pattern at the respective polarities, not its
NRZI-decoded value. -/
theorem detect_sync_raw_byte :
    (∀ (prev_dp prev_dm : Option Int) (dp_v dm_v : Int) (tm pd : ℚ)
       (smp : Option dpdm_sample) (d : Option dpdm_data),
      (prev_dp ≠ some dp_v ∨ prev_dm ≠ some dm_v) →
      detectEdge MState.IDLE prev_dp prev_dm dp_v dm_v tm pd smp d =
        (MState.DETECT_SYNC, some { next_tm := qadd tm pd },
         some { byte := {}, prev_bit := none, bytes_arr := [] })) ∧
    (∀ (st : MState) (d : dpdm_data) (dp dm : Nat), d.prev_bit = none →
      d.byte.nr_bits + 1 ≠ 8 →
      decodeBit st d dp dm =
        { byte := { nr_bits := d.byte.nr_bits + 1,
                    b := d.byte.b ||| (rawBit (dp, dm) <<< d.byte.nr_bits) },
          prev_bit := none, bytes_arr := d.bytes_arr }) ∧
    (∀ p1 p2 p3 p4 p5 p6 p7 p8 : Nat × Nat,
      (syncByteFold [p1, p2, p3, p4, p5, p6, p7, p8]).bytes_arr =
        [0 ||| rawBit p1 <<< 0 ||| rawBit p2 <<< 1 ||| rawBit p3 <<< 2 |||
         rawBit p4 <<< 3 ||| rawBit p5 <<< 4 ||| rawBit p6 <<< 5 |||
         rawBit p7 <<< 6 ||| rawBit p8 <<< 7]) ∧
    ((syncByteFold [(0, 1), (1, 0), (0, 1), (1, 0), (0, 1), (1, 0), (0, 1), (0, 1)]).bytes_arr =
      [FS_SYNC] ∧
     (syncByteFold [(1, 0), (0, 1), (1, 0), (0, 1), (1, 0), (0, 1), (1, 0), (1, 0)]).bytes_arr =
      [LS_SYNC]) := by
  refine ⟨?_, ?_, ?_, by decide, by decide⟩
  · intro prev_dp prev_dm dp_v dm_v tm pd smp d hne
    unfold detectEdge
    rw [if_pos ⟨rfl, hne⟩]
  · intro st d dp dm hp h8
    simp [decodeBit, hp, h8, rawBit]
  · intro p1 p2 p3 p4 p5 p6 p7 p8
    rfl
theorem detect_sync_raw_byte_witness :
    detectEdge MState.IDLE (some 1) (some (-1)) (-1) 1 (mkRat 1 12000000)
        (mkRat 1 12000000) none none =
      (MState.DETECT_SYNC,
       some { next_tm := qadd (mkRat 1 12000000) (mkRat 1 12000000) },
       some { byte := {}, prev_bit := none, bytes_arr := [] }) ∧
    decodeBit MState.DETECT_SYNC { byte := {}, prev_bit := none, bytes_arr := [] } 1 0 =
      { byte := { nr_bits := 0 + 1, b := 0 ||| (rawBit (1, 0) <<< 0) },
        prev_bit := none, bytes_arr := [] } :=
  ⟨detect_sync_raw_byte.1 (some 1) (some (-1)) (-1) 1 (mkRat 1 12000000)
      (mkRat 1 12000000) none none (Or.inl (by decide)),
   detect_sync_raw_byte.2.1 MState.DETECT_SYNC ⟨{}, none, []⟩ 1 0 rfl (by decide)⟩

end UsbParse
